import Mathlib

/-!
Verification of the natural-language-to-SQL chat pipeline implemented in
`server.js` of the opsbot backend.  Strings are modelled as `List Char`
(`String.data`); the JavaScript regex replacements of the SQL sanitizer are
modelled operation by operation, and the Express request handlers are modelled
as pure functions over an environment recording the outcomes of the external
database and generative-model calls.
-/

namespace OpsBot

/-- Characters matched by the JavaScript regex class `\s` and trimmed by
`String.prototype.trim`: ASCII whitespace, NBSP, the Unicode space separators,
line/paragraph separators and the BOM. -/
def isJSWS (c : Char) : Bool :=
  c.toNat = 9 || c.toNat = 10 || c.toNat = 11 || c.toNat = 12 || c.toNat = 13 ||
  c.toNat = 32 || c.toNat = 160 || c.toNat = 5760 ||
  (decide (8192 ≤ c.toNat) && decide (c.toNat ≤ 8202)) ||
  c.toNat = 8232 || c.toNat = 8233 || c.toNat = 8239 || c.toNat = 8287 ||
  c.toNat = 12288 || c.toNat = 65279

/-- Strip leading JS whitespace (the left half of `trim`). -/
def ltrim (l : List Char) : List Char := l.dropWhile isJSWS

/-- Strip trailing JS whitespace (the right half of `trim`). -/
def rtrim (l : List Char) : List Char := List.rdropWhile isJSWS l

/-- `String.prototype.trim`. -/
def jsTrim (l : List Char) : List Char := ltrim (rtrim l)

/-- ASCII lower-casing: the canonicalisation performed by the `i` flag of the
JS regexes on their ASCII pattern characters (non-ASCII characters are not
folded to ASCII ones in non-Unicode regex mode). -/
def lowerC (c : Char) : Char :=
  if 65 ≤ c.toNat ∧ c.toNat ≤ 90 then Char.ofNat (c.toNat + 32) else c

/-- `.replace(/^```sql\s*/i, '')` from `server.js` line 110: if the string
starts with a case-insensitive ```` ```sql ```` marker, remove it together with
the greedy run of whitespace that follows. -/
def stripFenceOpen (l : List Char) : List Char :=
  if (l.take 6).map lowerC = "```sql".data then (l.drop 6).dropWhile isJSWS else l

/-- `.replace(/\s*```$/i, '')` from `server.js` line 111: if the string ends
with ```` ``` ````, remove it together with the whitespace run preceding it. -/
def stripFenceClose (l : List Char) : List Char :=
  if "```".data <:+ l then List.rdropWhile isJSWS (List.rdrop l 3) else l

/-- `.replace(/^SQL Query:\s*/i, '')` from `server.js` line 112: if the string
starts with a case-insensitive `SQL Query:` label, remove it together with the
whitespace run that follows. -/
def stripLabel (l : List Char) : List Char :=
  if (l.take 10).map lowerC = "sql query:".data then (l.drop 10).dropWhile isJSWS else l

/-- Lines 106–113 of `server.js`: `result.response.text().trim()` followed by
the three `replace` calls and the final `.trim()`. -/
def cleanSQL (l : List Char) : List Char :=
  jsTrim (stripLabel (stripFenceClose (stripFenceOpen (jsTrim l))))

/-- The sanitizer on `String`s. -/
def cleanSQLStr (s : String) : String := String.mk (cleanSQL s.data)

/-- The backtick character. -/
def bq : Char := Char.ofNat 96

/-- A JSON-like value as held in a database result row. -/
inductive JVal where
  | jnull
  | jbool (b : Bool)
  | jint (n : Int)
  | jstr (s : String)
  | jarr (xs : List JVal)
  | jobj (fields : List (String × JVal))

/-- One database result row: a mapping from column name to value. -/
abbrev Row := List (String × JVal)

def hexDigit (n : Nat) : Char :=
  if n < 10 then Char.ofNat (48 + n) else Char.ofNat (87 + n)

def hex4 (n : Nat) : String :=
  String.mk [hexDigit (n / 4096 % 16), hexDigit (n / 256 % 16), hexDigit (n / 16 % 16),
    hexDigit (n % 16)]

/-- JSON string escaping as performed by `JSON.stringify`. -/
def escJChar (c : Char) : String :=
  if c = '"' then "\\\""
  else if c = '\\' then "\\\\"
  else if c = '\n' then "\\n"
  else if c = '\t' then "\\t"
  else if c = '\r' then "\\r"
  else if c.toNat = 8 then "\\b"
  else if c.toNat = 12 then "\\f"
  else if c.toNat < 32 then "\\u" ++ hex4 c.toNat
  else String.mk [c]

def escJ (s : String) : String := String.join (s.data.map escJChar)

def spaces (n : Nat) : String := String.mk (List.replicate n ' ')

mutual

/-- `JSON.stringify(v, null, 2)` relative to an ambient indentation level. -/
def renderJ (ind : Nat) : JVal → String
  | .jnull => "null"
  | .jbool b => if b then "true" else "false"
  | .jint n => toString n
  | .jstr s => "\"" ++ escJ s ++ "\""
  | .jarr xs =>
    if xs.isEmpty then "[]"
    else "[\n" ++ renderArr (ind + 2) xs ++ "\n" ++ spaces ind ++ "]"
  | .jobj fs =>
    if fs.isEmpty then "\x7b\x7d"
    else "\x7b\n" ++ renderObj (ind + 2) fs ++ "\n" ++ spaces ind ++ "\x7d"

/-- Array members, one per line, comma separated. -/
def renderArr (ind : Nat) : List JVal → String
  | [] => ""
  | [x] => spaces ind ++ renderJ ind x
  | x :: y :: xs => spaces ind ++ renderJ ind x ++ ",\n" ++ renderArr ind (y :: xs)

/-- Object members, one per line, comma separated. -/
def renderObj (ind : Nat) : List (String × JVal) → String
  | [] => ""
  | [(k, v)] => spaces ind ++ "\"" ++ escJ k ++ "\": " ++ renderJ ind v
  | (k, v) :: f :: fs =>
    spaces ind ++ "\"" ++ escJ k ++ "\": " ++ renderJ ind v ++ ",\n" ++ renderObj ind (f :: fs)

end

/-- The `JSON.stringify(x, null, 2)` call of the narration prompt, applied to
a list of rows. -/
def jsonStringifyRows (rows : List Row) : String :=
  renderJ 0 (JVal.jarr (rows.map JVal.jobj))

/-- One row of the `information_schema.columns` introspection query of
`getDatabaseSchema` (`server.js` lines 40–52). -/
structure SchemaRow where
  table_name : String
  column_name : String
  data_type : String
  is_nullable : String
  column_default : Option String
deriving DecidableEq

/-- One column descriptor as assembled by `getDatabaseSchema`. -/
structure ColumnInfo where
  column : String
  type : String
  nullable : Bool
  default : Option String
deriving DecidableEq

/-- The grouped schema: an insertion-ordered mapping from table name to its
column descriptors, as built by the `forEach` of `getDatabaseSchema`. -/
abbrev SchemaInfo := List (String × List ColumnInfo)

def colOfRow (row : SchemaRow) : ColumnInfo :=
  ⟨row.column_name, row.data_type, row.is_nullable == "YES", row.column_default⟩

/-- One step of the `forEach` loop of `getDatabaseSchema`: create the table
entry if absent, then push this row's column onto it. -/
def addRow (schema : SchemaInfo) (row : SchemaRow) : SchemaInfo :=
  if schema.any (fun e => e.fst == row.table_name) then
    schema.map (fun e =>
      if e.fst == row.table_name then (e.fst, e.snd ++ [colOfRow row]) else e)
  else
    schema ++ [(row.table_name, [colOfRow row])]

/-- `getDatabaseSchema` (`server.js` lines 38–73): group the introspection
rows by table; on any query failure return the empty mapping instead of
propagating the error. -/
def getDatabaseSchema (introspection : Except String (List SchemaRow)) : SchemaInfo :=
  match introspection with
  | .ok result => result.foldl addRow []
  | .error _ => []

/-- A raw result of `pool.query`: rows, the driver-reported row count (which
the `pg` driver may leave `null`), and the returned field names. -/
structure QueryResult where
  rows : List Row
  rowCount : Option Int
  fields : Option (List String)

/-- The value returned by `executeSQLQuery`: either the success record
`{success: true, data, rowCount, fields}` or the failure record
`{success: false, error, sqlQuery}`. -/
inductive ExecOutcome where
  | success (data : List Row) (rowCount : Option Int) (fields : List String)
  | failure (error : String) (sqlQuery : String)

/-- `executeSQLQuery` (`server.js` lines 123–142): run the statement; on
acceptance wrap rows, row count and field names (`result.fields?.map(...) ||
[]`), on rejection catch the error and return the failure record carrying the
database's message and the attempted query text. -/
def executeSQLQuery (sqlQuery : String) (db : Except String QueryResult) : ExecOutcome :=
  match db with
  | .ok result => .success result.rows result.rowCount (result.fields.getD [])
  | .error e => .failure e sqlQuery

/-- The schema description block of the SQL-generation prompt. -/
def schemaDescription (schema : SchemaInfo) : String :=
  String.intercalate "\n" (schema.map (fun e =>
    "Table \"" ++ e.fst ++ "\": " ++
      String.intercalate ", " (e.snd.map (fun col => col.column ++ " (" ++ col.type ++ ")"))))

/-- The SQL-generation prompt of `generateSQLQuery` (`server.js` lines
88–102). -/
def sqlPrompt (naturalLanguageQuery : String) (schema : SchemaInfo) : String :=
  "\nGiven this PostgreSQL database schema:\n" ++ schemaDescription schema ++
  "\n\nConvert this natural language query to SQL:\n\"" ++ naturalLanguageQuery ++
  "\"\n\nRules:\n1. Return ONLY the SQL query, no explanations\n" ++
  "2. Use proper PostgreSQL syntax\n3. Include appropriate WHERE clauses if needed\n" ++
  "4. Limit results to 50 rows for performance\n" ++
  "5. Use table and column names exactly as shown in the schema\n\nSQL Query:"

/-- `generateSQLQuery` (`server.js` lines 76–120): one model call; on success
sanitize the returned text with the fence/label stripper; on a model failure
catch it and throw `new Error('Failed to generate SQL query')`. -/
def generateSQLQuery (naturalLanguageQuery : String) (schema : SchemaInfo)
    (modelCall : String → Except String String) : Except String String :=
  match modelCall (sqlPrompt naturalLanguageQuery schema) with
  | .ok text => .ok (cleanSQLStr text)
  | .error _ => .error "Failed to generate SQL query"

/-- JavaScript template interpolation of the possibly-`null` row count. -/
def showOptInt : Option Int → String
  | none => "null"
  | some n => toString n

/-- The narration prompt used when execution succeeded with at least one row
(`server.js` lines 152–166). -/
def successPrompt (query : String) (rowCount : Option Int) (data : List Row)
    (originalQuestion : String) : String :=
  "\nBased on this database query result, provide a natural language answer to the " ++
  "user\x27s question.\n\nUser\x27s Question: \"" ++ originalQuestion ++
  "\"\nSQL Query Used: " ++ query ++ "\nQuery Results (showing " ++ showOptInt rowCount ++
  " total rows):\n" ++ jsonStringifyRows (data.take 5) ++
  "\n\nProvide a clear, helpful response that:\n1. Directly answers the user\x27s question\n" ++
  "2. Includes relevant numbers and data points\n3. Is written in a conversational tone\n" ++
  "4. Mentions if there are more results than shown\n\nResponse:"

/-- The narration prompt used when execution failed or returned no rows
(`server.js` lines 168–180). -/
def missPrompt (query : String) (err : String) (originalQuestion : String) : String :=
  "\nThe database query failed or returned no results.\n\nUser\x27s Question: \"" ++
  originalQuestion ++ "\"\nSQL Query Attempted: " ++ query ++ "\nError: " ++ err ++
  "\n\nProvide a helpful response that:\n1. Explains why no data was found\n" ++
  "2. Suggests alternative ways to phrase the question\n3. Is polite and helpful\n\nResponse:"

/-- The fixed fallback string of `generateNaturalResponse`. -/
def narrationFallback : String :=
  "I found some data but had trouble explaining it. Please try rephrasing your question."

/-- Prompt selection of `generateNaturalResponse`: the success prompt needs
`sqlResult.success && sqlResult.data.length > 0`; otherwise the miss prompt is
built with `sqlResult.error || 'No results found'`. -/
def narrationPrompt (query : String) (sqlResult : ExecOutcome)
    (originalQuestion : String) : String :=
  match sqlResult with
  | .success data rowCount _ =>
    if data.length > 0 then successPrompt query rowCount data originalQuestion
    else missPrompt query "No results found" originalQuestion
  | .failure e _ =>
    missPrompt query (if e = "" then "No results found" else e) originalQuestion

/-- `generateNaturalResponse` (`server.js` lines 145–190): one model call; on
success return the trimmed text, on a model failure catch it and return the
fixed fallback string. -/
def generateNaturalResponse (query : String) (sqlResult : ExecOutcome)
    (originalQuestion : String) (modelCall : String → Except String String) : String :=
  match modelCall (narrationPrompt query sqlResult originalQuestion) with
  | .ok text => String.mk (jsTrim text.data)
  | .error _ => narrationFallback

/-- `sqlResult.rowCount`: present only on the success record. -/
def outcomeRowCount : ExecOutcome → Option Int
  | .success _ rowCount _ => rowCount
  | .failure _ _ => none

/-- `sqlResult.success && sqlResult.data && sqlResult.data.length > 0`. -/
def outcomeHasData : ExecOutcome → Bool
  | .success data _ _ => decide (data.length > 0)
  | .failure _ _ => false

/-- `sqlResult.success ? sqlResult.data?.slice(0, 10) : null`. -/
def outcomePreview : ExecOutcome → Option (List Row)
  | .success data _ _ => some (data.take 10)
  | .failure _ _ => none

/-- `sqlResult.fields || []`: the field-name array on success (an empty array
is truthy in JavaScript, so it is kept), `[]` when the property is absent. -/
def outcomeFields : ExecOutcome → List String
  | .success _ _ fields => fields
  | .failure _ _ => []

/-- `sqlResult.success`. -/
def outcomeIsSuccess : ExecOutcome → Bool
  | .success _ _ _ => true
  | .failure _ _ => false

/-- JavaScript `x || 0` on a possibly-missing row count: `undefined`, `null`
and `0` are all falsy and coerce to `0`. -/
def jsOrZero : Option Int → Int
  | none => 0
  | some n => if n = 0 then 0 else n

/-- The `data` object of the 200 chat envelope (`server.js` lines 226–232). -/
structure ChatData where
  sqlQuery : String
  resultCount : Int
  hasData : Bool
  preview : Option (List Row)
  fields : List String

/-- The three response shapes the chat endpoint can produce: the `400`
validation response, a `200` JSON envelope (whose `data` object is absent on
the early database-unavailable return), and the `500` catch-all response. -/
inductive ChatHttpResponse where
  | badRequest (error : String)
  | ok (response : String) (rtype : String) (data : Option ChatData)
  | serverError (response : String) (rtype : String) (error : String)

/-- Outcomes of the external calls a chat turn can make: the schema
introspection query, the SQL-generation model call, the SQL execution, and
the narration model call.  Each is either a value or a thrown error. -/
structure Env where
  introspection : Except String (List SchemaRow)
  sqlModel : String → Except String String
  runQuery : String → Except String QueryResult
  narrationModel : String → Except String String

/-- Which of the four external interactions a chat turn performed. -/
structure CallLog where
  introspected : Bool
  modelGenerated : Bool
  executed : Bool
  narrated : Bool
deriving DecidableEq

/-- JavaScript truthiness test `!message` on the request body's `message`
field, restricted to absent-or-string values. -/
def falsyStr : Option String → Bool
  | none => true
  | some s => s == ""

/-- The fixed narrative of the early database-unavailable return. -/
def dbUnavailableResponse : String :=
  "I\x27m having trouble connecting to the database right now. Please try again later."

/-- The generic apology of the 500 catch-all response. -/
def genericApology : String :=
  "I encountered an error while processing your request. Please try again or " ++
  "rephrase your question."

/-- `app.post('/api/chat')` (`server.js` lines 193–251): validation, schema
introspection with the empty-schema short-circuit, SQL generation (whose
thrown error is the only one that can reach the outer catch), execution,
narration, and assembly of the 200 envelope.  Returns the response paired
with the log of which external calls ran. -/
def handleChatTurn (env : Env) (message : Option String) : ChatHttpResponse × CallLog :=
  if falsyStr message then
    (.badRequest "Message is required", ⟨false, false, false, false⟩)
  else if (getDatabaseSchema env.introspection).length = 0 then
    (.ok dbUnavailableResponse "error" none, ⟨true, false, false, false⟩)
  else
    match generateSQLQuery (message.getD "") (getDatabaseSchema env.introspection)
        env.sqlModel with
    | .error e => (.serverError genericApology "error" e, ⟨true, true, false, false⟩)
    | .ok sqlQuery =>
      (.ok (generateNaturalResponse sqlQuery
              (executeSQLQuery sqlQuery (env.runQuery sqlQuery)) (message.getD "")
              env.narrationModel)
          (if outcomeIsSuccess (executeSQLQuery sqlQuery (env.runQuery sqlQuery))
            then "success" else "error")
          (some ⟨sqlQuery,
            jsOrZero (outcomeRowCount (executeSQLQuery sqlQuery (env.runQuery sqlQuery))),
            outcomeHasData (executeSQLQuery sqlQuery (env.runQuery sqlQuery)),
            outcomePreview (executeSQLQuery sqlQuery (env.runQuery sqlQuery)),
            outcomeFields (executeSQLQuery sqlQuery (env.runQuery sqlQuery))⟩),
        ⟨true, true, true, true⟩)

/-- The two response shapes of the tables endpoint. -/
inductive TablesResponse where
  | ok (success : Bool) (tables : List String) (schema : SchemaInfo)
  | err (success : Bool) (error : String)
deriving DecidableEq

/-- `app.get('/api/tables')` (`server.js` lines 273–287).  The `catch` branch
of the source can only fire if `getDatabaseSchema` throws, which it never
does: every database error is caught inside it and converted into the empty
mapping.  The handler therefore returns the 200 shape unconditionally and the
500 shape `TablesResponse.err` is constructed nowhere. -/
def tablesHandler (introspection : Except String (List SchemaRow)) : TablesResponse :=
  let schema := getDatabaseSchema introspection
  .ok true (schema.map Prod.fst) schema

/-- Discriminator for the tables responses. -/
def isOkTables : TablesResponse → Bool
  | .ok _ _ _ => true
  | .err _ _ => false

/-- The envelope invariant of the 200 chat responses: `type` is `success` or
`error`, and the `data` object (with its five fields) is present except on
the database-unavailable short-circuit, which carries only the fixed
narrative and `type: 'error'`. -/
def chatEnvelopeInv : ChatHttpResponse → Bool
  | .ok response rtype data =>
    (rtype == "success" || rtype == "error") &&
    (data.isSome || (response == dbUnavailableResponse && rtype == "error"))
  | _ => true

/-- A sample introspection row used by the concrete test environments. -/
def sampleRow : SchemaRow := ⟨"employees", "id", "integer", "NO", none⟩

/-- A sample database result row. -/
def row1 : Row := [("id", JVal.jint 1)]

/-- An empty successful query result. -/
def qrEmpty : QueryResult := ⟨[], some 0, some []⟩

/-- A two-row result whose reported count matches the rows. -/
def qrRows : QueryResult := ⟨[row1, row1], some 2, some ["id"]⟩

/-- A one-row result whose reported count is `null`. -/
def qrNull : QueryResult := ⟨[row1], none, some ["id"]⟩

/-- Environment: one schema row, model answers `SELECT 1`, execution returns
the empty result set, narration answers. -/
def envLive : Env :=
  ⟨.ok [sampleRow], fun _ => .ok "SELECT 1", fun _ => .ok qrEmpty, fun _ => .ok "All good."⟩

/-- Environment whose introspection query fails. -/
def envDbDown : Env :=
  ⟨.error "connection refused", fun _ => .ok "SELECT 1", fun _ => .ok qrEmpty,
    fun _ => .ok "All good."⟩

/-- Environment whose SQL execution is rejected by the database. -/
def envExecFail : Env :=
  ⟨.ok [sampleRow], fun _ => .ok "SELECT broken",
    fun _ => .error "syntax error at or near broken", fun _ => .ok "Sorry, that failed."⟩

/-- Environment whose SQL-generation model call throws. -/
def envGenFail : Env :=
  ⟨.ok [sampleRow], fun _ => .error "quota exceeded", fun _ => .ok qrEmpty,
    fun _ => .ok "All good."⟩

/-- Environment whose narration model call throws. -/
def envNarrFail : Env :=
  ⟨.ok [sampleRow], fun _ => .ok "SELECT 1", fun _ => .ok qrEmpty,
    fun _ => .error "model offline"⟩

/-- Environment whose execution returns two rows with a matching count. -/
def envRows : Env :=
  ⟨.ok [sampleRow], fun _ => .ok "SELECT 1", fun _ => .ok qrRows, fun _ => .ok "Two rows."⟩

/-- Environment whose execution returns one row but a `null` count. -/
def envNullCount : Env :=
  ⟨.ok [sampleRow], fun _ => .ok "SELECT 1", fun _ => .ok qrNull, fun _ => .ok "One row."⟩

example : cleanSQLStr "```sql\nSELECT 1\n```" = "SELECT 1" := by decide

example : cleanSQLStr "SQL Query:  SELECT * FROM t  " = "SELECT * FROM t" := by decide

example : cleanSQLStr "```sql SQL Query: SELECT 1 ```" = "SELECT 1" := by decide

example : cleanSQLStr "SQL Query: ```sql\nSELECT 1\n```" = "```sql\nSELECT 1" := by decide

theorem dat_fence3 : "```".data = [bq, bq, bq] := by decide

theorem dat_open : "```sql\n".data = [bq, bq, bq, 's', 'q', 'l', '\n'] := by decide

theorem dat_close : "\n```".data = ['\n', bq, bq, bq] := by decide

theorem dat_label : "SQL Query: ".data = ['S', 'Q', 'L', ' ', 'Q', 'u', 'e', 'r', 'y', ':', ' '] := by
  decide

theorem infix_of_pref {a b : List Char} (h : a <+: b) : a <:+: b := List.IsPrefix.isInfix h

theorem infix_of_suff {a b : List Char} (h : a <:+ b) : a <:+: b := List.IsSuffix.isInfix h

theorem infix_trans {a b c : List Char} (h1 : a <:+: b) (h2 : b <:+: c) : a <:+: c :=
  List.IsInfix.trans h1 h2

theorem ltrim_cons_pos {c : Char} (h : isJSWS c = true) (l : List Char) :
    ltrim (c :: l) = ltrim l := by
  simp [ltrim, List.dropWhile_cons, h]

theorem ltrim_cons_neg {c : Char} (h : isJSWS c = false) (l : List Char) :
    ltrim (c :: l) = c :: l := by
  simp [ltrim, List.dropWhile_cons, h]

theorem ltrim_append (a b : List Char) :
    ltrim (a ++ b) = if ltrim a = [] then ltrim b else ltrim a ++ b := by
  rw [ltrim, List.dropWhile_append]
  by_cases h : List.dropWhile isJSWS a = []
  · simp [ltrim, h]
  · simp [ltrim, h]

theorem rtrim_concat_pos {c : Char} (h : isJSWS c = true) (l : List Char) :
    rtrim (l ++ [c]) = rtrim l :=
  List.rdropWhile_concat_pos isJSWS l c h

theorem rtrim_concat_neg {c : Char} (h : isJSWS c = false) (l : List Char) :
    rtrim (l ++ [c]) = l ++ [c] :=
  List.rdropWhile_concat_neg isJSWS l c (by simp [h])

theorem rtrim_append (a b : List Char) :
    rtrim (a ++ b) = if rtrim b = [] then rtrim a else a ++ rtrim b := by
  by_cases h : rtrim b = []
  · have hb : List.dropWhile isJSWS b.reverse = [] := by
      have h2 := congrArg List.reverse h
      simpa [rtrim, List.rdropWhile] using h2
    simp [rtrim, List.rdropWhile, List.reverse_append, List.dropWhile_append, hb, h]
  · have hb : ¬ List.dropWhile isJSWS b.reverse = [] := by
      intro hh
      exact h (by simp [rtrim, List.rdropWhile, hh])
    simp [rtrim, List.rdropWhile, List.reverse_append, List.dropWhile_append, hb, h]

theorem rtrim_cons (c : Char) (l : List Char) :
    rtrim (c :: l) =
      if rtrim l = [] then (if isJSWS c then [] else [c]) else c :: rtrim l := by
  have hshape : (c :: l) = [c] ++ l := rfl
  rw [hshape, rtrim_append]
  by_cases h : rtrim l = []
  · simp only [h, if_pos rfl, if_true]
    exact List.rdropWhile_singleton isJSWS c
  · simp [h]

theorem ltrim_eq_nil_iff {l : List Char} : ltrim l = [] ↔ ∀ c ∈ l, isJSWS c := by
  simp [ltrim, List.dropWhile_eq_nil_iff]

theorem rtrim_eq_nil_iff {l : List Char} : rtrim l = [] ↔ ∀ c ∈ l, isJSWS c := by
  simp [rtrim, List.rdropWhile_eq_nil_iff]

theorem ltrim_idem (l : List Char) : ltrim (ltrim l) = ltrim l := by
  induction l with
  | nil => rfl
  | cons c l ih =>
    by_cases h : isJSWS c
    · rw [ltrim_cons_pos h]
      exact ih
    · have hf : isJSWS c = false := by simpa using h
      rw [ltrim_cons_neg hf, ltrim_cons_neg hf]

theorem rtrim_idem (l : List Char) : rtrim (rtrim l) = rtrim l :=
  List.rdropWhile_idempotent isJSWS l

theorem ltrim_rtrim_comm (l : List Char) : ltrim (rtrim l) = rtrim (ltrim l) := by
  induction l with
  | nil => rfl
  | cons c l ih =>
    by_cases hl : rtrim l = []
    · have hall : ∀ x ∈ l, isJSWS x := rtrim_eq_nil_iff.mp hl
      by_cases hc : isJSWS c
      · have h1 : rtrim (c :: l) = [] := by rw [rtrim_cons]; simp [hl, hc]
        have h2 : ltrim (c :: l) = ltrim l := ltrim_cons_pos hc l
        have h3 : rtrim (ltrim l) = [] := by
          rw [rtrim_eq_nil_iff]
          intro x hx
          exact hall x ((List.dropWhile_suffix isJSWS).subset hx)
        rw [h1, h2, h3]
        rfl
      · have hf : isJSWS c = false := by simpa using hc
        have h1 : rtrim (c :: l) = [c] := by rw [rtrim_cons]; simp [hl, hc]
        rw [h1, ltrim_cons_neg hf, ltrim_cons_neg hf, h1]
    · by_cases hc : isJSWS c
      · have h1 : rtrim (c :: l) = c :: rtrim l := by rw [rtrim_cons]; simp [hl]
        rw [h1, ltrim_cons_pos hc, ih, ltrim_cons_pos hc]
      · have hf : isJSWS c = false := by simpa using hc
        have h1 : rtrim (c :: l) = c :: rtrim l := by rw [rtrim_cons]; simp [hl]
        rw [h1, ltrim_cons_neg hf, ltrim_cons_neg hf, h1]

theorem jsTrim_idem (l : List Char) : jsTrim (jsTrim l) = jsTrim l := by
  show ltrim (rtrim (ltrim (rtrim l))) = ltrim (rtrim l)
  rw [← ltrim_rtrim_comm (rtrim l), rtrim_idem, ltrim_idem]

theorem jsTrim_within (l : List Char) : jsTrim l <:+: l := by
  have h1 : ltrim (rtrim l) <:+ rtrim l := List.dropWhile_suffix isJSWS
  have h2 : rtrim l <+: l := List.rdropWhile_prefix isJSWS l
  exact infix_trans (infix_of_suff h1) (infix_of_pref h2)

theorem ltrim_nil_rtrim {l : List Char} (h : ltrim l = []) : rtrim l = [] :=
  rtrim_eq_nil_iff.mpr (ltrim_eq_nil_iff.mp h)

theorem jsTrim_of_rtrim_nil {l : List Char} (h : rtrim l = []) : jsTrim l = [] := by
  rw [jsTrim, h]
  rfl

theorem toNat_ofNat_valid {n : Nat} (h : n < 55296) : (Char.ofNat n).toNat = n := by
  have hv : n.isValidChar := Or.inl h
  rw [Char.ofNat, dif_pos hv]
  rfl

theorem lowerC_bq {c : Char} (h : lowerC c = bq) : c = bq := by
  by_cases hc : 65 ≤ c.toNat ∧ c.toNat ≤ 90
  · exfalso
    rw [lowerC, if_pos hc] at h
    have h1 := congrArg Char.toNat h
    rw [toNat_ofNat_valid (by omega)] at h1
    have h2 : bq.toNat = 96 := by decide
    omega
  · rwa [lowerC, if_neg hc] at h

theorem map_lowerC_fence {l : List Char} (h : l.map lowerC = [bq, bq, bq]) :
    l = [bq, bq, bq] := by
  have hlen : l.length = 3 := by
    have h2 := congrArg List.length h
    simpa using h2
  match l, hlen with
  | [a, b, c], _ =>
    simp only [List.map_cons, List.map_nil, List.cons.injEq, and_true] at h
    rw [lowerC_bq h.1, lowerC_bq h.2.1, lowerC_bq h.2.2]

theorem no_fenceOpen_of_safe {t : List Char} (ht : ¬ ("```".data <:+: t)) :
    (t.take 6).map lowerC ≠ "```sql".data := by
  intro h
  apply ht
  have h3 : (t.take 3).map lowerC = [bq, bq, bq] := by
    have h4 : ((t.take 6).map lowerC).take 3 = [bq, bq, bq] := by
      rw [h]
      decide
    rw [← List.map_take, List.take_take] at h4
    simpa using h4
  have h5 : t.take 3 = [bq, bq, bq] := map_lowerC_fence h3
  refine infix_of_pref ?_
  rw [dat_fence3, ← h5]
  exact List.take_prefix 3 t

theorem no_fenceClose_of_safe {t : List Char} (ht : ¬ ("```".data <:+: t)) :
    ¬ ("```".data <:+ t) :=
  fun h => ht (infix_of_suff h)

theorem stripFenceOpen_noop {t : List Char} (ht : ¬ ("```".data <:+: t)) :
    stripFenceOpen t = t := by
  rw [stripFenceOpen, if_neg (no_fenceOpen_of_safe ht)]

theorem stripFenceClose_noop {t : List Char} (ht : ¬ ("```".data <:+: t)) :
    stripFenceClose t = t := by
  rw [stripFenceClose, if_neg (no_fenceClose_of_safe ht)]

theorem stripLabel_noop {t : List Char} (hlab : (t.take 10).map lowerC ≠ "sql query:".data) :
    stripLabel t = t := by
  rw [stripLabel, if_neg hlab]

theorem stripFenceOpen_fires (x : List Char) :
    stripFenceOpen ("```sql\n".data ++ x) = ltrim x := by
  have hc : (("```sql\n".data ++ x).take 6).map lowerC = "```sql".data := by
    rw [dat_open]
    simp only [List.cons_append, List.nil_append, List.take_succ_cons, List.take_zero]
    decide
  rw [stripFenceOpen, if_pos hc, dat_open]
  simp only [List.cons_append, List.nil_append, List.drop_succ_cons, List.drop_zero]
  rw [List.dropWhile_cons_of_pos (by decide : isJSWS '\n' = true)]
  rfl

theorem stripLabel_fires (x : List Char) :
    stripLabel ("SQL Query: ".data ++ x) = ltrim x := by
  have hc : (("SQL Query: ".data ++ x).take 10).map lowerC = "sql query:".data := by
    rw [dat_label]
    simp only [List.cons_append, List.nil_append, List.take_succ_cons, List.take_zero]
    decide
  rw [stripLabel, if_pos hc, dat_label]
  simp only [List.cons_append, List.nil_append, List.drop_succ_cons, List.drop_zero]
  rw [List.dropWhile_cons_of_pos (by decide : isJSWS ' ' = true)]
  rfl

theorem stripFenceClose_fires (y : List Char) :
    stripFenceClose (y ++ "\n```".data) = rtrim y := by
  have hs : "```".data <:+ y ++ "\n```".data := by
    refine ⟨y ++ ['\n'], ?_⟩
    rw [dat_close, dat_fence3]
    simp
  rw [stripFenceClose, if_pos hs]
  have hr : List.rdrop (y ++ "\n```".data) 3 = y ++ ['\n'] := by
    rw [List.rdrop, dat_close]
    have hlen : (y ++ ['\n', bq, bq, bq]).length - 3 = y.length + 1 := by simp
    rw [hlen, List.take_append]
    simp
  rw [hr]
  exact rtrim_concat_pos (by decide) y

theorem no_close_label {r : List Char} (hr : ¬ ("```".data <:+: r)) :
    ¬ ("```".data <:+ ("SQL Query: ".data ++ r)) := by
  rintro ⟨u, hu⟩
  rcases List.append_eq_append_iff.mp hu with ⟨w, hw1, hw2⟩ | ⟨w, hw1, hw2⟩
  · have hwpre : w <+: "```".data := ⟨r, hw2.symm⟩
    have hwsuf : w <:+ "SQL Query: ".data := ⟨u, hw1.symm⟩
    have hLen3 : ("```".data).length = 3 := by decide
    have hlen : w.length ≤ 3 := by
      have h3 := List.IsPrefix.length_le hwpre
      omega
    have hweq : w = "```".data.take w.length := List.prefix_iff_eq_take.mp hwpre
    have hcases : w.length = 0 ∨ w.length = 1 ∨ w.length = 2 ∨ w.length = 3 := by omega
    rcases hcases with h0 | h1c | h2c | h3c
    · rw [h0, List.take_zero] at hweq
      rw [hweq, List.nil_append] at hw2
      apply hr
      rw [hw2]
    · rw [h1c, show "```".data.take 1 = [bq] from by decide] at hweq
      rw [hweq] at hwsuf
      exact absurd hwsuf (by decide)
    · rw [h2c, show "```".data.take 2 = [bq, bq] from by decide] at hweq
      rw [hweq] at hwsuf
      exact absurd hwsuf (by decide)
    · rw [h3c, show "```".data.take 3 = [bq, bq, bq] from by decide] at hweq
      rw [hweq] at hwsuf
      exact absurd hwsuf (by decide)
  · exact hr (infix_of_suff ⟨w, hw2.symm⟩)

theorem jsTrim_fenceWrap (m : List Char) :
    jsTrim ("```sql\n".data ++ m ++ "\n```".data) = "```sql\n".data ++ m ++ "\n```".data := by
  have hshape : "```sql\n".data ++ m ++ "\n```".data
      = ("```sql\n".data ++ m ++ ['\n', bq, bq]) ++ [bq] := by
    rw [dat_close]
    simp
  have hr : rtrim ("```sql\n".data ++ m ++ "\n```".data)
      = "```sql\n".data ++ m ++ "\n```".data := by
    rw [hshape, rtrim_concat_neg (by decide)]
  rw [jsTrim, hr, dat_open]
  simp only [List.cons_append, List.nil_append]
  rw [ltrim_cons_neg (by decide)]

/-- Round trip for an unwrapped model answer: the sanitizer only trims it,
provided the answer holds no triple backtick and its trimmed form does not
start with a (case-insensitive) `SQL Query:` label of its own. -/
theorem roundtrip_id (inner : List Char) (h1 : ¬ ("```".data <:+: inner))
    (h2 : ((jsTrim inner).take 10).map lowerC ≠ "sql query:".data) :
    cleanSQL inner = jsTrim inner := by
  have hsafe : ¬ ("```".data <:+: jsTrim inner) :=
    fun h => h1 (infix_trans h (jsTrim_within inner))
  rw [cleanSQL, stripFenceOpen_noop hsafe, stripFenceClose_noop hsafe, stripLabel_noop h2,
    jsTrim_idem]

/-- Round trip for a fence-wrapped model answer. -/
theorem roundtrip_fence (inner : List Char)
    (h2 : ((jsTrim inner).take 10).map lowerC ≠ "sql query:".data) :
    cleanSQL ("```sql\n".data ++ inner ++ "\n```".data) = jsTrim inner := by
  rw [cleanSQL, jsTrim_fenceWrap, List.append_assoc, stripFenceOpen_fires, ltrim_append]
  by_cases hA : ltrim inner = []
  · rw [if_pos hA, show ltrim "\n```".data = [bq, bq, bq] from by decide,
      show jsTrim (stripLabel (stripFenceClose [bq, bq, bq])) = [] from by decide]
    exact (jsTrim_of_rtrim_nil (ltrim_nil_rtrim hA)).symm
  · rw [if_neg hA, stripFenceClose_fires, ← ltrim_rtrim_comm]
    show jsTrim (stripLabel (jsTrim inner)) = jsTrim inner
    rw [stripLabel_noop h2]
    exact jsTrim_idem inner

/-- Round trip for a label-prefixed model answer; here the sanitizer itself
removes the label, so no condition on the head of the statement is needed. -/
theorem roundtrip_label (inner : List Char) (h1 : ¬ ("```".data <:+: inner)) :
    cleanSQL ("SQL Query: ".data ++ inner) = jsTrim inner := by
  by_cases hB : rtrim inner = []
  · have hin : jsTrim ("SQL Query: ".data ++ inner)
        = ltrim (rtrim "SQL Query: ".data) := by
      rw [jsTrim, rtrim_append, if_pos hB]
    rw [cleanSQL, hin,
      show jsTrim (stripLabel (stripFenceClose (stripFenceOpen
        (ltrim (rtrim "SQL Query: ".data))))) = [] from by decide]
    exact (jsTrim_of_rtrim_nil hB).symm
  · have hlt : ltrim ("SQL Query: ".data ++ rtrim inner)
        = "SQL Query: ".data ++ rtrim inner := by
      rw [dat_label]
      simp only [List.cons_append, List.nil_append]
      rw [ltrim_cons_neg (by decide)]
    have hin : jsTrim ("SQL Query: ".data ++ inner)
        = "SQL Query: ".data ++ rtrim inner := by
      rw [jsTrim, rtrim_append, if_neg hB, hlt]
    rw [cleanSQL, hin]
    have hno6 : (("SQL Query: ".data ++ rtrim inner).take 6).map lowerC ≠ "```sql".data := by
      rw [dat_label]
      simp only [List.cons_append, List.nil_append, List.take_succ_cons, List.take_zero]
      decide
    rw [stripFenceOpen, if_neg hno6]
    have hrsafe : ¬ ("```".data <:+: rtrim inner) :=
      fun h => h1 (infix_trans h (infix_of_pref (List.rdropWhile_prefix isJSWS inner)))
    rw [stripFenceClose, if_neg (no_close_label hrsafe), stripLabel_fires]
    exact jsTrim_idem inner

/-- Round trip for an answer carrying the label inside the fences. -/
theorem roundtrip_fence_label (inner : List Char) :
    cleanSQL ("```sql\n".data ++ ("SQL Query: ".data ++ inner) ++ "\n```".data)
      = jsTrim inner := by
  rw [cleanSQL, jsTrim_fenceWrap, List.append_assoc, stripFenceOpen_fires]
  have hlt : ltrim ("SQL Query: ".data ++ inner ++ "\n```".data)
      = "SQL Query: ".data ++ inner ++ "\n```".data := by
    rw [List.append_assoc, dat_label]
    simp only [List.cons_append, List.nil_append]
    rw [ltrim_cons_neg (by decide)]
  rw [hlt, stripFenceClose_fires, rtrim_append]
  by_cases hB : rtrim inner = []
  · rw [if_pos hB,
      show jsTrim (stripLabel (rtrim "SQL Query: ".data)) = [] from by decide]
    exact (jsTrim_of_rtrim_nil hB).symm
  · rw [if_neg hB, stripLabel_fires]
    exact jsTrim_idem inner

/-- Claim C1, amended.  For every inner SQL statement containing no
triple-backtick sequence and whose trimmed form does not itself begin with a
case-insensitive `SQL Query:` label, sanitizing the raw model response formed
by wrapping the statement in ```` ```sql ... ``` ```` fences and/or prefixing
it with the `SQL Query:` label placed inside the fences — i.e. the raw
responses `inner`, `label(inner)`, `fence(inner)` and `fence(label(inner))` —
yields exactly the inner statement with no leading or trailing whitespace.
The claim as frozen, which allows any combination of the two wrappers, fails
for the combination that puts the label outside the fences: see the
counterexample theorem. -/
theorem c1_roundtrip_amended (inner : List Char)
    (h1 : ¬ ("```".data <:+: inner))
    (h2 : ((jsTrim inner).take 10).map lowerC ≠ "sql query:".data) :
    cleanSQL inner = jsTrim inner ∧
    cleanSQL ("SQL Query: ".data ++ inner) = jsTrim inner ∧
    cleanSQL ("```sql\n".data ++ inner ++ "\n```".data) = jsTrim inner ∧
    cleanSQL ("```sql\n".data ++ ("SQL Query: ".data ++ inner) ++ "\n```".data)
      = jsTrim inner :=
  ⟨roundtrip_id inner h1 h2, roundtrip_label inner h1, roundtrip_fence inner h2,
    roundtrip_fence_label inner⟩

/-- Claim C1 as frozen is false on the code: for the inner statement
`SELECT 1` (which contains no triple backtick), the wrapper combination that
prefixes the `SQL Query:` label to the fenced statement sanitizes to a string
that still carries the opening ```` ```sql ```` fence, not to the inner
statement. -/
theorem c1_counterexample :
    cleanSQLStr "SQL Query: ```sql\nSELECT 1\n```" = "```sql\nSELECT 1" ∧
    cleanSQLStr "SQL Query: ```sql\nSELECT 1\n```" ≠ "SELECT 1" := by
  constructor
  · decide
  · decide

/-- Witness instantiating `c1_roundtrip_amended` at the statement `SELECT 1`. -/
theorem c1_roundtrip_witness :
    (¬ ("```".data <:+: "SELECT 1".data)) ∧
    (((jsTrim "SELECT 1".data).take 10).map lowerC ≠ "sql query:".data) ∧
    (cleanSQL "SELECT 1".data = jsTrim "SELECT 1".data ∧
     cleanSQL ("SQL Query: ".data ++ "SELECT 1".data) = jsTrim "SELECT 1".data ∧
     cleanSQL ("```sql\n".data ++ "SELECT 1".data ++ "\n```".data) = jsTrim "SELECT 1".data ∧
     cleanSQL ("```sql\n".data ++ ("SQL Query: ".data ++ "SELECT 1".data) ++ "\n```".data)
       = jsTrim "SELECT 1".data) :=
  ⟨by decide, by decide, c1_roundtrip_amended "SELECT 1".data (by decide) (by decide)⟩

/-- Helper: the value of a chat turn that passes validation, finds a
non-empty schema and synthesizes `sqlQuery` successfully. -/
theorem handleChatTurn_eq_run (env : Env) (message : Option String) (sqlQuery : String)
    (hm : falsyStr message = false)
    (hs : (getDatabaseSchema env.introspection).length ≠ 0)
    (hgen : generateSQLQuery (message.getD "") (getDatabaseSchema env.introspection)
        env.sqlModel = .ok sqlQuery) :
    handleChatTurn env message
      = (.ok (generateNaturalResponse sqlQuery
              (executeSQLQuery sqlQuery (env.runQuery sqlQuery)) (message.getD "")
              env.narrationModel)
          (if outcomeIsSuccess (executeSQLQuery sqlQuery (env.runQuery sqlQuery))
            then "success" else "error")
          (some ⟨sqlQuery,
            jsOrZero (outcomeRowCount (executeSQLQuery sqlQuery (env.runQuery sqlQuery))),
            outcomeHasData (executeSQLQuery sqlQuery (env.runQuery sqlQuery)),
            outcomePreview (executeSQLQuery sqlQuery (env.runQuery sqlQuery)),
            outcomeFields (executeSQLQuery sqlQuery (env.runQuery sqlQuery))⟩),
        ⟨true, true, true, true⟩) := by
  rw [handleChatTurn, if_neg (by simp [hm]), if_neg hs, hgen]

/-- Claim C2, amended.  Only an absent or empty-string `message`
short-circuits the chat endpoint with the 400 validation error and no
pipeline step; a whitespace-only message passes the `!message` truthiness
check, so the pipeline proceeds for it (see the counterexample). -/
theorem c2_validation_amended (env : Env) :
    handleChatTurn env none
        = (.badRequest "Message is required", ⟨false, false, false, false⟩) ∧
    handleChatTurn env (some "")
        = (.badRequest "Message is required", ⟨false, false, false, false⟩) :=
  ⟨rfl, rfl⟩

/-- Claim C2 as frozen is false on the code: the whitespace-only question
`" "` is truthy in JavaScript, so it is not rejected with a 400; the whole
pipeline runs (all four external calls are made) and a 200 envelope is
returned. -/
theorem c2_counterexample :
    (handleChatTurn envLive (some " ")).fst
        = ChatHttpResponse.ok "All good." "success"
            (some ⟨"SELECT 1", 0, false, some [], []⟩) ∧
    (handleChatTurn envLive (some " ")).snd = ⟨true, true, true, true⟩ :=
  ⟨rfl, rfl⟩

/-- Claim C3, amended.  Every 200 response from the chat endpoint has a
`type` that is `success` or `error`, and carries the five-field `data` object
except on the early database-unavailable path, whose envelope consists of the
fixed narrative and `type: 'error'` only, with no `data` member. -/
theorem c3_envelope_amended (env : Env) (message : Option String) :
    chatEnvelopeInv (handleChatTurn env message).fst = true := by
  rw [handleChatTurn]
  by_cases hm : falsyStr message = true
  · rw [if_pos hm]
    rfl
  · rw [if_neg hm]
    by_cases hs : (getDatabaseSchema env.introspection).length = 0
    · rw [if_pos hs]
      rfl
    · rw [if_neg hs]
      cases hgen : generateSQLQuery (message.getD "") (getDatabaseSchema env.introspection)
          env.sqlModel with
      | error e => rfl
      | ok sqlQuery =>
        cases houtcome : outcomeIsSuccess (executeSQLQuery sqlQuery (env.runQuery sqlQuery)) <;>
          simp [chatEnvelopeInv, houtcome]

/-- Claim C3 as frozen is false on the code: the 200 response of the early
database-unavailable path has no `data` member at all. -/
theorem c3_counterexample :
    (handleChatTurn envDbDown (some "list employees")).fst
        = ChatHttpResponse.ok dbUnavailableResponse "error" none :=
  rfl

/-- Claim C4.  For every request that reaches introspection, an empty schema
mapping short-circuits the pipeline with the fixed database-unavailable
narrative and `type: 'error'`, and neither the model nor the executor nor the
narrator is called; moreover every introspection failure is converted into
the empty mapping rather than a thrown error. -/
theorem c4_empty_schema_short_circuit (env : Env) (message : Option String)
    (hm : falsyStr message = false)
    (hs : (getDatabaseSchema env.introspection).length = 0) :
    handleChatTurn env message
        = (.ok dbUnavailableResponse "error" none, ⟨true, false, false, false⟩) ∧
    (∀ e : String, getDatabaseSchema (.error e) = []) := by
  refine ⟨?_, fun e => rfl⟩
  rw [handleChatTurn, if_neg (by simp [hm]), if_pos hs]

/-- Witness instantiating `c4_empty_schema_short_circuit` on an environment
whose introspection query fails. -/
theorem c4_witness :
    falsyStr (some "list the employees") = false ∧
    (getDatabaseSchema envDbDown.introspection).length = 0 ∧
    (handleChatTurn envDbDown (some "list the employees")
        = (.ok dbUnavailableResponse "error" none, ⟨true, false, false, false⟩) ∧
      (∀ e : String, getDatabaseSchema (.error e) = [])) :=
  ⟨by decide, rfl,
    c4_empty_schema_short_circuit envDbDown (some "list the employees") (by decide) rfl⟩

/-- Claim C5.  Whenever the database rejects the synthesized statement, the
executor returns (it cannot throw, being a total function into
`ExecOutcome`) a failure carrying the database's error message and the
attempted query text, and the assembled 200 envelope for that turn has
`type: 'error'`, `resultCount = 0`, `hasData = false` (with a `null` preview
and empty field list). -/
theorem c5_execution_failure (env : Env) (message : Option String) (sqlQuery e : String)
    (hm : falsyStr message = false)
    (hs : (getDatabaseSchema env.introspection).length ≠ 0)
    (hgen : generateSQLQuery (message.getD "") (getDatabaseSchema env.introspection)
        env.sqlModel = .ok sqlQuery)
    (hdb : env.runQuery sqlQuery = .error e) :
    executeSQLQuery sqlQuery (env.runQuery sqlQuery) = .failure e sqlQuery ∧
    (handleChatTurn env message).fst
        = .ok (generateNaturalResponse sqlQuery (.failure e sqlQuery) (message.getD "")
              env.narrationModel)
            "error" (some ⟨sqlQuery, 0, false, none, []⟩) := by
  have hexec : executeSQLQuery sqlQuery (env.runQuery sqlQuery) = .failure e sqlQuery := by
    rw [hdb]
    rfl
  refine ⟨hexec, ?_⟩
  rw [handleChatTurn_eq_run env message sqlQuery hm hs hgen]
  dsimp only
  rw [hexec]
  rfl

/-- Witness instantiating `c5_execution_failure` on an environment whose
database rejects the statement. -/
theorem c5_witness :
    falsyStr (some "q") = false ∧
    (getDatabaseSchema envExecFail.introspection).length ≠ 0 ∧
    generateSQLQuery ((some "q").getD "") (getDatabaseSchema envExecFail.introspection)
        envExecFail.sqlModel = .ok "SELECT broken" ∧
    envExecFail.runQuery "SELECT broken" = .error "syntax error at or near broken" ∧
    (executeSQLQuery "SELECT broken" (envExecFail.runQuery "SELECT broken")
        = .failure "syntax error at or near broken" "SELECT broken" ∧
      (handleChatTurn envExecFail (some "q")).fst
        = .ok (generateNaturalResponse "SELECT broken"
              (.failure "syntax error at or near broken" "SELECT broken") ((some "q").getD "")
              envExecFail.narrationModel)
            "error" (some ⟨"SELECT broken", 0, false, none, []⟩)) :=
  ⟨by decide, by decide, rfl, rfl,
    c5_execution_failure envExecFail (some "q") "SELECT broken" "syntax error at or near broken"
      (by decide) (by decide) rfl rfl⟩

/-- Claim C6.  For every successful execution whose driver-reported row count
covers the rows actually returned (the `pg` driver reports the row count of
the returned row set for row-producing statements), the 200 envelope's
preview is the 10-element prefix of the result rows: a prefix of the full row
sequence, of length at most 10 and at most `resultCount`. -/
theorem c6_preview_bounds (env : Env) (message : Option String) (sqlQuery : String)
    (qr : QueryResult)
    (hm : falsyStr message = false)
    (hs : (getDatabaseSchema env.introspection).length ≠ 0)
    (hgen : generateSQLQuery (message.getD "") (getDatabaseSchema env.introspection)
        env.sqlModel = .ok sqlQuery)
    (hdb : env.runQuery sqlQuery = .ok qr)
    (hcount : (qr.rows.length : Int) ≤ jsOrZero qr.rowCount) :
    (handleChatTurn env message).fst
        = .ok (generateNaturalResponse sqlQuery
              (.success qr.rows qr.rowCount (qr.fields.getD [])) (message.getD "")
              env.narrationModel)
            "success"
            (some ⟨sqlQuery, jsOrZero qr.rowCount, decide (qr.rows.length > 0),
              some (qr.rows.take 10), qr.fields.getD []⟩) ∧
    qr.rows.take 10 <+: qr.rows ∧
    (qr.rows.take 10).length ≤ 10 ∧
    ((qr.rows.take 10).length : Int) ≤ jsOrZero qr.rowCount := by
  have hexec : executeSQLQuery sqlQuery (env.runQuery sqlQuery)
      = .success qr.rows qr.rowCount (qr.fields.getD []) := by
    rw [hdb]
    rfl
  refine ⟨?_, List.take_prefix 10 qr.rows, ?_, ?_⟩
  · rw [handleChatTurn_eq_run env message sqlQuery hm hs hgen]
    dsimp only
    rw [hexec]
    rfl
  · rw [List.length_take]
    exact Nat.min_le_left _ _
  · have h1 : (qr.rows.take 10).length ≤ qr.rows.length := by
      rw [List.length_take]
      exact Nat.min_le_right _ _
    have h2 : ((qr.rows.take 10).length : Int) ≤ (qr.rows.length : Int) := by
      exact_mod_cast h1
    exact le_trans h2 hcount

/-- Witness instantiating `c6_preview_bounds` on a two-row result. -/
theorem c6_witness :
    falsyStr (some "q") = false ∧
    (getDatabaseSchema envRows.introspection).length ≠ 0 ∧
    generateSQLQuery ((some "q").getD "") (getDatabaseSchema envRows.introspection)
        envRows.sqlModel = .ok "SELECT 1" ∧
    envRows.runQuery "SELECT 1" = .ok qrRows ∧
    ((qrRows.rows.length : Int) ≤ jsOrZero qrRows.rowCount) ∧
    ((handleChatTurn envRows (some "q")).fst
        = .ok (generateNaturalResponse "SELECT 1"
              (.success qrRows.rows qrRows.rowCount (qrRows.fields.getD [])) ((some "q").getD "")
              envRows.narrationModel)
            "success"
            (some ⟨"SELECT 1", jsOrZero qrRows.rowCount, decide (qrRows.rows.length > 0),
              some (qrRows.rows.take 10), qrRows.fields.getD []⟩) ∧
      qrRows.rows.take 10 <+: qrRows.rows ∧
      (qrRows.rows.take 10).length ≤ 10 ∧
      ((qrRows.rows.take 10).length : Int) ≤ jsOrZero qrRows.rowCount) :=
  ⟨by decide, by decide, rfl, rfl, by decide,
    c6_preview_bounds envRows (some "q") "SELECT 1" qrRows (by decide) (by decide) rfl rfl
      (by decide)⟩

/-- Claim C7.  When the model call of SQL synthesis throws, the (re-wrapped)
error is the only one that escapes to the orchestrator's single outer catch,
and the caller receives the 500 response with `type: 'error'`, the generic
apology narrative and the propagated error's message `Failed to generate SQL
query` attached verbatim; execution and narration never run. -/
theorem c7_synthesis_error (env : Env) (message : Option String) (e : String)
    (hm : falsyStr message = false)
    (hs : (getDatabaseSchema env.introspection).length ≠ 0)
    (hmodel : env.sqlModel (sqlPrompt (message.getD "") (getDatabaseSchema env.introspection))
        = .error e) :
    handleChatTurn env message
        = (.serverError genericApology "error" "Failed to generate SQL query",
            ⟨true, true, false, false⟩) := by
  have hgen : generateSQLQuery (message.getD "") (getDatabaseSchema env.introspection)
      env.sqlModel = .error "Failed to generate SQL query" := by
    rw [generateSQLQuery, hmodel]
  rw [handleChatTurn, if_neg (by simp [hm]), if_neg hs, hgen]

/-- Witness instantiating `c7_synthesis_error` on an environment whose
generation model call throws. -/
theorem c7_witness :
    falsyStr (some "q") = false ∧
    (getDatabaseSchema envGenFail.introspection).length ≠ 0 ∧
    envGenFail.sqlModel (sqlPrompt ((some "q").getD "")
        (getDatabaseSchema envGenFail.introspection)) = .error "quota exceeded" ∧
    handleChatTurn envGenFail (some "q")
        = (.serverError genericApology "error" "Failed to generate SQL query",
            ⟨true, true, false, false⟩) :=
  ⟨by decide, by decide, rfl,
    c7_synthesis_error envGenFail (some "q") "quota exceeded" (by decide) (by decide) rfl⟩

/-- Claim C8.  The narrator never fails outward: for every question, SQL
string and execution outcome, a thrown narration model call is absorbed into
the fixed apologetic fallback string; consequently a turn whose narration
model call throws still completes with the 200 envelope built from the
execution outcome's data. -/
theorem c8_narration_fallback (env : Env) (message : Option String) (sqlQuery e : String)
    (hm : falsyStr message = false)
    (hs : (getDatabaseSchema env.introspection).length ≠ 0)
    (hgen : generateSQLQuery (message.getD "") (getDatabaseSchema env.introspection)
        env.sqlModel = .ok sqlQuery)
    (hnarr : env.narrationModel (narrationPrompt sqlQuery
        (executeSQLQuery sqlQuery (env.runQuery sqlQuery)) (message.getD ""))
        = .error e) :
    (∀ (query question e2 : String) (outcome : ExecOutcome)
        (modelCall : String → Except String String),
      modelCall (narrationPrompt query outcome question) = .error e2 →
      generateNaturalResponse query outcome question modelCall = narrationFallback) ∧
    (handleChatTurn env message).fst
        = .ok narrationFallback
            (if outcomeIsSuccess (executeSQLQuery sqlQuery (env.runQuery sqlQuery))
              then "success" else "error")
            (some ⟨sqlQuery,
              jsOrZero (outcomeRowCount (executeSQLQuery sqlQuery (env.runQuery sqlQuery))),
              outcomeHasData (executeSQLQuery sqlQuery (env.runQuery sqlQuery)),
              outcomePreview (executeSQLQuery sqlQuery (env.runQuery sqlQuery)),
              outcomeFields (executeSQLQuery sqlQuery (env.runQuery sqlQuery))⟩) := by
  have hgeneral : ∀ (query question e2 : String) (outcome : ExecOutcome)
      (modelCall : String → Except String String),
      modelCall (narrationPrompt query outcome question) = .error e2 →
      generateNaturalResponse query outcome question modelCall = narrationFallback := by
    intro query question e2 outcome modelCall hfail
    rw [generateNaturalResponse, hfail]
  refine ⟨hgeneral, ?_⟩
  rw [handleChatTurn_eq_run env message sqlQuery hm hs hgen]
  dsimp only
  rw [hgeneral sqlQuery (message.getD "") e
    (executeSQLQuery sqlQuery (env.runQuery sqlQuery)) env.narrationModel hnarr]

/-- Witness instantiating `c8_narration_fallback` on an environment whose
narration model call throws. -/
theorem c8_witness :
    falsyStr (some "q") = false ∧
    (getDatabaseSchema envNarrFail.introspection).length ≠ 0 ∧
    generateSQLQuery ((some "q").getD "") (getDatabaseSchema envNarrFail.introspection)
        envNarrFail.sqlModel = .ok "SELECT 1" ∧
    envNarrFail.narrationModel (narrationPrompt "SELECT 1"
        (executeSQLQuery "SELECT 1" (envNarrFail.runQuery "SELECT 1")) ((some "q").getD ""))
        = .error "model offline" ∧
    (handleChatTurn envNarrFail (some "q")).fst
        = .ok narrationFallback
            (if outcomeIsSuccess (executeSQLQuery "SELECT 1" (envNarrFail.runQuery "SELECT 1"))
              then "success" else "error")
            (some ⟨"SELECT 1",
              jsOrZero (outcomeRowCount (executeSQLQuery "SELECT 1"
                (envNarrFail.runQuery "SELECT 1"))),
              outcomeHasData (executeSQLQuery "SELECT 1" (envNarrFail.runQuery "SELECT 1")),
              outcomePreview (executeSQLQuery "SELECT 1" (envNarrFail.runQuery "SELECT 1")),
              outcomeFields (executeSQLQuery "SELECT 1" (envNarrFail.runQuery "SELECT 1"))⟩) :=
  ⟨by decide, by decide, rfl, rfl,
    (c8_narration_fallback envNarrFail (some "q") "SELECT 1" "model offline"
      (by decide) (by decide) rfl rfl).2⟩

/-- Claim C9.  For every successful execution whose driver-reported row count
is `null` or `0`, the envelope's `resultCount` is `0` regardless of how many
rows the row sequence holds (`rowCount || 0` coerces every falsy count to
`0`), while `hasData` and `preview` are computed from the row sequence
itself. -/
theorem c9_falsy_rowcount (env : Env) (message : Option String) (sqlQuery : String)
    (qr : QueryResult)
    (hm : falsyStr message = false)
    (hs : (getDatabaseSchema env.introspection).length ≠ 0)
    (hgen : generateSQLQuery (message.getD "") (getDatabaseSchema env.introspection)
        env.sqlModel = .ok sqlQuery)
    (hdb : env.runQuery sqlQuery = .ok qr)
    (hrc : qr.rowCount = none ∨ qr.rowCount = some 0) :
    (handleChatTurn env message).fst
        = .ok (generateNaturalResponse sqlQuery
              (.success qr.rows qr.rowCount (qr.fields.getD [])) (message.getD "")
              env.narrationModel)
            "success"
            (some ⟨sqlQuery, 0, decide (qr.rows.length > 0), some (qr.rows.take 10),
              qr.fields.getD []⟩) := by
  have hexec : executeSQLQuery sqlQuery (env.runQuery sqlQuery)
      = .success qr.rows qr.rowCount (qr.fields.getD []) := by
    rw [hdb]
    rfl
  have hjz : jsOrZero qr.rowCount = 0 := by
    rcases hrc with h | h <;> simp [jsOrZero, h]
  rw [handleChatTurn_eq_run env message sqlQuery hm hs hgen]
  dsimp only
  rw [hexec]
  simp only [outcomeRowCount, outcomeHasData, outcomePreview, outcomeFields, outcomeIsSuccess,
    hjz, if_true]

/-- Witness instantiating `c9_falsy_rowcount` on a one-row result with a
`null` reported count: `resultCount` is `0` although one row was returned. -/
theorem c9_witness :
    falsyStr (some "q") = false ∧
    (getDatabaseSchema envNullCount.introspection).length ≠ 0 ∧
    generateSQLQuery ((some "q").getD "") (getDatabaseSchema envNullCount.introspection)
        envNullCount.sqlModel = .ok "SELECT 1" ∧
    envNullCount.runQuery "SELECT 1" = .ok qrNull ∧
    (qrNull.rowCount = none ∨ qrNull.rowCount = some 0) ∧
    (handleChatTurn envNullCount (some "q")).fst
        = .ok (generateNaturalResponse "SELECT 1"
              (.success qrNull.rows qrNull.rowCount (qrNull.fields.getD [])) ((some "q").getD "")
              envNullCount.narrationModel)
            "success"
            (some ⟨"SELECT 1", 0, decide (qrNull.rows.length > 0), some (qrNull.rows.take 10),
              qrNull.fields.getD []⟩) :=
  ⟨by decide, by decide, rfl, rfl, Or.inl rfl,
    c9_falsy_rowcount envNullCount (some "q") "SELECT 1" qrNull (by decide) (by decide) rfl rfl
      (Or.inl rfl)⟩

/-- Claim C10.  The tables endpoint never produces its 500 failure shape:
schema introspection converts every database error into the empty mapping
instead of throwing, so the handler's error branch is unreachable, and with
the database unreachable the endpoint still responds 200 with `success:
true`, an empty table list and an empty schema. -/
theorem c10_tables_never_500 :
    (∀ introspection : Except String (List SchemaRow),
      isOkTables (tablesHandler introspection) = true) ∧
    (∀ e : String, tablesHandler (.error e) = .ok true [] []) :=
  ⟨fun _ => rfl, fun _ => rfl⟩

end OpsBot
